import Mathlib

/-!
Verification of the metric accumulators of FastPoseCNN (lib/metrics.py).

The file shallowly embeds the six `pl.metrics.Metric` subclasses:
`DegreeErrorMeanAP`, `DegreeError`, `Iou3dAP`, `Iou3dAccuracy`,
`OffsetAP`, `OffsetError`.  Batches are lists of per-class match
dictionaries whose optional keys (`quaternion`, `RT`, `scales`) hold a
(ground-truth, prediction) pair of tensors.  Tensors are modelled as
lists of rationals; the geometric scoring functions imported from
`gpu_tensor_funcs` (a module not part of the excerpt) are kept abstract
as section variables, so every theorem is quantified over them.

Python failure modes are made explicit: `torch.cat` of an empty list of
tensors raises (modelled as `MetricError.emptyScoreSet`), and a missing
dictionary key raises (modelled as `MetricError.keyError`).  A `compute`
method contains no assignment to `self`, so it is embedded as a function
returning the reported value together with the (unchanged) state.
-/

/-- A torch tensor of per-instance scalar values. -/
abbrev Tensor := List ℚ

/-- One per-class match dictionary of a batch: each optional field holds
the pair (ground truth, prediction) stored under the like-named key. -/
structure Match where
  quaternion : Option (Tensor × Tensor)
  RT : Option (Tensor × Tensor)
  scales : Option (Tensor × Tensor)
deriving DecidableEq

/-- Python exceptions that the update methods can raise. -/
inductive MetricError where
  | emptyScoreSet
  | keyError (key : String)
deriving DecidableEq

/-- The state of a threshold accumulator: the two integer counters added
via `add_state` (both default to the zero tensor). -/
structure ThreshState where
  correct : ℕ
  total : ℕ
deriving DecidableEq

/-- Counter state right after construction or reset. -/
def initThreshState : ThreshState := ⟨0, 0⟩

/-- torch.mean of a one-dimensional tensor (sum divided by length). -/
def torch_mean (t : Tensor) : ℚ := t.sum / t.length

section Metrics

variable (torch_quat_distance : Tensor → Tensor → Tensor)
variable (get_3d_ious : Tensor → Tensor → Tensor → Tensor → Tensor)
variable (from_RTs_get_T_offset_errors : Tensor → Tensor → Tensor)

/-- One iteration of the class loop of `DegreeErrorMeanAP.update`:
skip if `quaternion` is absent, otherwise threshold the quaternion
distances and bump both counters. -/
def DegreeErrorMeanAP.step (threshold : ℚ) (s : ThreshState) (m : Match) :
    ThreshState :=
  match m.quaternion with
  | none => s
  | some q =>
    let degree_distance := torch_quat_distance q.1 q.2
    let thresh_degree_distance := degree_distance.map (fun x => decide (x < threshold))
    { correct := s.correct + thresh_degree_distance.count true,
      total := s.total + thresh_degree_distance.length }

/-- Method `DegreeErrorMeanAP.update`: fold the class loop over the batch. -/
def DegreeErrorMeanAP.update (threshold : ℚ) (s : ThreshState)
    (gt_pred_matches : List Match) : ThreshState :=
  gt_pred_matches.foldl (DegreeErrorMeanAP.step torch_quat_distance threshold) s

/-- Method `DegreeErrorMeanAP.compute`: `(correct / total) * 100`; no state change. -/
def DegreeErrorMeanAP.compute (s : ThreshState) : ℚ × ThreshState :=
  (((s.correct : ℚ) / (s.total : ℚ)) * 100, s)

/-- The list `all_degree_distances` built by the class loop of
`DegreeError.update`. -/
def DegreeError.collect (gt_pred_matches : List Match) : List Tensor :=
  gt_pred_matches.foldl
    (fun all_degree_distances m =>
      match m.quaternion with
      | none => all_degree_distances
      | some q => all_degree_distances ++ [torch_quat_distance q.1 q.2]) []

/-- Method `DegreeError.update`: collect the per-class distance tensors, then
`torch.cat` them (raising on an empty list), take the mean and blend it
into the register. -/
def DegreeError.update (error : ℚ) (gt_pred_matches : List Match) :
    Except MetricError ℚ :=
  let all_degree_distances := DegreeError.collect torch_quat_distance gt_pred_matches
  if all_degree_distances.isEmpty then .error .emptyScoreSet
  else
    let this_round_error := torch_mean all_degree_distances.flatten
    .ok ((error + this_round_error) / 2)

/-- Method `DegreeError.compute`: return the register; no state change. -/
def DegreeError.compute (error : ℚ) : ℚ × ℚ := (error, error)

/-- One iteration of the class loop of `Iou3dAP.update`: skip only when
`RT` is absent; a present `RT` with a missing `scales` key raises
(`Except.error` carries the counters reached so far). -/
def Iou3dAP.step (threshold : ℚ) (s : ThreshState) (m : Match) :
    Except ThreshState ThreshState :=
  match m.RT with
  | none => .ok s
  | some rt =>
    match m.scales with
    | none => .error s
    | some sc =>
      let ious_3d := get_3d_ious rt.1 rt.2 sc.1 sc.2
      let thresh_iou_3d := ious_3d.map (fun x => decide (x > threshold))
      .ok { correct := s.correct + thresh_iou_3d.count true,
            total := s.total + thresh_iou_3d.length }

/-- Method `Iou3dAP.update`: fold the class loop over the batch; a raised
`KeyError` aborts the loop with the partially updated counters. -/
def Iou3dAP.update (threshold : ℚ) (s : ThreshState)
    (gt_pred_matches : List Match) : Except ThreshState ThreshState :=
  gt_pred_matches.foldlM (Iou3dAP.step get_3d_ious threshold) s

/-- Method `Iou3dAP.compute`: `(correct / total) * 100`; no state change. -/
def Iou3dAP.compute (s : ThreshState) : ℚ × ThreshState :=
  (((s.correct : ℚ) / (s.total : ℚ)) * 100, s)

/-- The list `all_ious_3d` built by the class loop of
`Iou3dAccuracy.update`; each iou tensor is rescaled by 100.  A match
with `RT` but no `scales` raises a `KeyError`. -/
def Iou3dAccuracy.collect (gt_pred_matches : List Match) :
    Except MetricError (List Tensor) :=
  gt_pred_matches.foldlM
    (fun all_ious_3d m =>
      match m.RT with
      | none => .ok all_ious_3d
      | some rt =>
        match m.scales with
        | none => .error (.keyError "scales")
        | some sc =>
          .ok (all_ious_3d ++ [(get_3d_ious rt.1 rt.2 sc.1 sc.2).map (fun x => x * 100)])) []

/-- Method `Iou3dAccuracy.update`: collect the rescaled iou tensors, then
`torch.cat` them (raising on an empty list), take the mean and blend it
into the register. -/
def Iou3dAccuracy.update (accuracy : ℚ) (gt_pred_matches : List Match) :
    Except MetricError ℚ :=
  match Iou3dAccuracy.collect get_3d_ious gt_pred_matches with
  | .error e => .error e
  | .ok all_ious_3d =>
    if all_ious_3d.isEmpty then .error .emptyScoreSet
    else
      let this_round_accuracy := torch_mean all_ious_3d.flatten
      .ok ((accuracy + this_round_accuracy) / 2)

/-- Method `Iou3dAccuracy.compute`: return the register; no state change. -/
def Iou3dAccuracy.compute (accuracy : ℚ) : ℚ × ℚ := (accuracy, accuracy)

/-- One iteration of the class loop of `OffsetAP.update`: skip if `RT`
is absent, otherwise threshold the offset errors and bump both
counters. -/
def OffsetAP.step (threshold : ℚ) (s : ThreshState) (m : Match) :
    ThreshState :=
  match m.RT with
  | none => s
  | some rt =>
    let offset_errors := from_RTs_get_T_offset_errors rt.1 rt.2
    let thresh_offset_error := offset_errors.map (fun x => decide (x < threshold))
    { correct := s.correct + thresh_offset_error.count true,
      total := s.total + thresh_offset_error.length }

/-- Method `OffsetAP.update`: fold the class loop over the batch. -/
def OffsetAP.update (threshold : ℚ) (s : ThreshState)
    (gt_pred_matches : List Match) : ThreshState :=
  gt_pred_matches.foldl (OffsetAP.step from_RTs_get_T_offset_errors threshold) s

/-- Method `OffsetAP.compute`: `(correct / total) * 100`; no state change. -/
def OffsetAP.compute (s : ThreshState) : ℚ × ThreshState :=
  (((s.correct : ℚ) / (s.total : ℚ)) * 100, s)

/-- One iteration of the class loop of `OffsetError.update`.  Unlike the
other two running-mean metrics, the blend of the register happens inside
the loop body, once per non-skipped class. -/
def OffsetError.step (error : ℚ) (m : Match) : ℚ :=
  match m.RT with
  | none => error
  | some rt =>
    let offset_errors := from_RTs_get_T_offset_errors rt.1 rt.2
    let this_round_error := torch_mean offset_errors
    (error + this_round_error) / 2

/-- Method `OffsetError.update`: fold the class loop over the batch; it can
neither raise nor leave the loop early. -/
def OffsetError.update (error : ℚ) (gt_pred_matches : List Match) : ℚ :=
  gt_pred_matches.foldl (OffsetError.step from_RTs_get_T_offset_errors) error

/-- Method `OffsetError.compute`: return the register; no state change. -/
def OffsetError.compute (error : ℚ) : ℚ × ℚ := (error, error)

end Metrics

/-! ### Derived descriptions of the updates

The lemmas below re-express each `update` as a pure formula over the
batch, which the claim theorems then build on. -/

/-- Collapse a finished-or-raised update to the counter state it left
behind (an `Except.error` carries the partially updated counters). -/
def exceptState (e : Except ThreshState ThreshState) : ThreshState :=
  match e with
  | .ok s => s
  | .error s => s

/-- Field-wise sum of two counter states (the declared distributed
reduction for threshold accumulators). -/
def ThreshState.add (s t : ThreshState) : ThreshState :=
  ⟨s.correct + t.correct, s.total + t.total⟩

/-- Counters contributed by a list of score tensors under pass
predicate `p`: per-tensor pass counts and lengths, summed. -/
def threshDelta (p : ℚ → Bool) (ls : List Tensor) : ThreshState :=
  ⟨(ls.map (fun l => l.countP p)).sum, (ls.map List.length).sum⟩

/-- The blend loop of `OffsetError.update` as a function of the
non-skipped slot means. -/
def blendFold (r : ℚ) (ms : List ℚ) : ℚ :=
  ms.foldl (fun acc m => (acc + m) / 2) r

section Metrics2

variable (torch_quat_distance : Tensor → Tensor → Tensor)
variable (get_3d_ious : Tensor → Tensor → Tensor → Tensor → Tensor)
variable (from_RTs_get_T_offset_errors : Tensor → Tensor → Tensor)

/-- The quaternion-distance tensors of the non-skipped slots of a
batch, in batch order. -/
def quatScoreLists (batch : List Match) : List Tensor :=
  batch.filterMap (fun m => m.quaternion.map (fun q => torch_quat_distance q.1 q.2))

/-- The offset-error tensors of the non-skipped slots of a batch, in
batch order. -/
def rtScoreLists (batch : List Match) : List Tensor :=
  batch.filterMap (fun m => m.RT.map (fun rt => from_RTs_get_T_offset_errors rt.1 rt.2))

/-- The 3d-iou tensors of the slots carrying both `RT` and `scales`, in
batch order. -/
def iouScoreLists (batch : List Match) : List Tensor :=
  batch.filterMap
    (fun m => m.RT.bind (fun rt => m.scales.map (fun sc => get_3d_ious rt.1 rt.2 sc.1 sc.2)))

/-- Same as `iouScoreLists` but rescaled by 100, as `Iou3dAccuracy`
stores them. -/
def iouScoreLists100 (batch : List Match) : List Tensor :=
  batch.filterMap
    (fun m => m.RT.bind (fun rt => m.scales.map
      (fun sc => (get_3d_ious rt.1 rt.2 sc.1 sc.2).map (fun x => x * 100))))

/-- The per-slot means blended by `OffsetError.update`, in batch
order. -/
def offsetSlotMeans (batch : List Match) : List ℚ :=
  (rtScoreLists from_RTs_get_T_offset_errors batch).map torch_mean

/-- Word-for-word reading of the running-mean update rule of the spec:
concatenate the non-skipped score sequences of the batch into one flat
sequence, take its arithmetic mean, and blend it into the register
once. -/
def specRunningMeanBlend (scoreSeqs : List Tensor) (register : ℚ) : ℚ :=
  (register + torch_mean scoreSeqs.flatten) / 2

/-- Repeatedly update a `DegreeErrorMeanAP` counter state over a list
of batches. -/
def DegreeErrorMeanAP.run (threshold : ℚ) (s : ThreshState)
    (batches : List (List Match)) : ThreshState :=
  batches.foldl (DegreeErrorMeanAP.update torch_quat_distance threshold) s

/-- Repeatedly update an `OffsetAP` counter state over a list of
batches. -/
def OffsetAP.run (threshold : ℚ) (s : ThreshState)
    (batches : List (List Match)) : ThreshState :=
  batches.foldl (OffsetAP.update from_RTs_get_T_offset_errors threshold) s

/-- Repeatedly update an `Iou3dAP` counter state over a list of
batches, propagating a raised `KeyError`. -/
def Iou3dAP.run (threshold : ℚ) (s : ThreshState)
    (batches : List (List Match)) : Except ThreshState ThreshState :=
  batches.foldlM (fun t b => Iou3dAP.update get_3d_ious threshold t b) s

end Metrics2

/-! ### Concrete sample data used by witnesses and counterexamples -/

/-- Sample scorer that reports the ground-truth tensor itself as the
per-instance scores. -/
def fstScore : Tensor → Tensor → Tensor := fun a _ => a

/-- Sample four-argument scorer that reports the first tensor as the
per-instance scores. -/
def fstScore4 : Tensor → Tensor → Tensor → Tensor → Tensor := fun a _ _ _ => a

/-- A class slot with no matched instances: every key absent. -/
def emptySlot : Match := ⟨none, none, none⟩

/-- A class slot carrying only the `quaternion` key. -/
def qSlot (gt pred : Tensor) : Match := ⟨some (gt, pred), none, none⟩

/-- A class slot carrying only the `RT` key. -/
def rtSlot (gt pred : Tensor) : Match := ⟨none, some (gt, pred), none⟩

/-- A class slot carrying the `RT` and `scales` keys. -/
def rtScalesSlot (gt pred sgt spred : Tensor) : Match :=
  ⟨none, some (gt, pred), some (sgt, spred)⟩

/-! ### Bridge lemmas -/

/-- torch.sum of the int-cast of a boolean tensor counts its `true`
entries. -/
lemma count_true_map (f : ℚ → Bool) (l : List ℚ) :
    (l.map f).count true = l.countP f := by
  induction l with
  | nil => rfl
  | cons a t ih => cases h : f a <;> simp [List.count_cons, List.countP_cons, h, ih]

lemma ThreshState.add_assoc (s t u : ThreshState) :
    (s.add t).add u = s.add (t.add u) := by
  cases s; cases t; cases u
  simp [ThreshState.add, Nat.add_assoc]

lemma ThreshState.init_add (s : ThreshState) : initThreshState.add s = s := by
  cases s; simp [ThreshState.add, initThreshState]

section MetricsLemmas

variable (torch_quat_distance : Tensor → Tensor → Tensor)
variable (get_3d_ious : Tensor → Tensor → Tensor → Tensor → Tensor)
variable (from_RTs_get_T_offset_errors : Tensor → Tensor → Tensor)

lemma degreeErrorMeanAP_update_eq (threshold : ℚ) (s : ThreshState)
    (batch : List Match) :
    DegreeErrorMeanAP.update torch_quat_distance threshold s batch =
      s.add (threshDelta (fun x => decide (x < threshold))
        (quatScoreLists torch_quat_distance batch)) := by
  induction batch generalizing s with
  | nil =>
    cases s
    simp [DegreeErrorMeanAP.update, quatScoreLists, threshDelta, ThreshState.add]
  | cons m t ih =>
    cases s with
    | mk c tot =>
      cases hq : m.quaternion with
      | none =>
        have hstep : DegreeErrorMeanAP.step torch_quat_distance threshold ⟨c, tot⟩ m = ⟨c, tot⟩ := by
          simp [DegreeErrorMeanAP.step, hq]
        simp only [DegreeErrorMeanAP.update, List.foldl_cons] at ih ⊢
        rw [hstep, ih]
        simp [quatScoreLists, List.filterMap_cons, hq]
      | some q =>
        have hstep : DegreeErrorMeanAP.step torch_quat_distance threshold ⟨c, tot⟩ m =
            ⟨c + (torch_quat_distance q.1 q.2).countP (fun x => decide (x < threshold)),
             tot + (torch_quat_distance q.1 q.2).length⟩ := by
          simp [DegreeErrorMeanAP.step, hq, count_true_map]
        simp only [DegreeErrorMeanAP.update, List.foldl_cons] at ih ⊢
        rw [hstep, ih]
        simp [quatScoreLists, List.filterMap_cons, hq, threshDelta, ThreshState.add,
          Nat.add_assoc]

end MetricsLemmas

section MetricsLemmas2

variable (torch_quat_distance : Tensor → Tensor → Tensor)
variable (get_3d_ious : Tensor → Tensor → Tensor → Tensor → Tensor)
variable (from_RTs_get_T_offset_errors : Tensor → Tensor → Tensor)

lemma offsetAP_update_eq (threshold : ℚ) (s : ThreshState)
    (batch : List Match) :
    OffsetAP.update from_RTs_get_T_offset_errors threshold s batch =
      s.add (threshDelta (fun x => decide (x < threshold))
        (rtScoreLists from_RTs_get_T_offset_errors batch)) := by
  induction batch generalizing s with
  | nil =>
    cases s
    simp [OffsetAP.update, rtScoreLists, threshDelta, ThreshState.add]
  | cons m t ih =>
    cases s with
    | mk c tot =>
      cases hq : m.RT with
      | none =>
        have hstep : OffsetAP.step from_RTs_get_T_offset_errors threshold ⟨c, tot⟩ m = ⟨c, tot⟩ := by
          simp [OffsetAP.step, hq]
        simp only [OffsetAP.update, List.foldl_cons] at ih ⊢
        rw [hstep, ih]
        simp [rtScoreLists, List.filterMap_cons, hq]
      | some rt =>
        have hstep : OffsetAP.step from_RTs_get_T_offset_errors threshold ⟨c, tot⟩ m =
            ⟨c + (from_RTs_get_T_offset_errors rt.1 rt.2).countP (fun x => decide (x < threshold)),
             tot + (from_RTs_get_T_offset_errors rt.1 rt.2).length⟩ := by
          simp [OffsetAP.step, hq, count_true_map]
        simp only [OffsetAP.update, List.foldl_cons] at ih ⊢
        rw [hstep, ih]
        simp [rtScoreLists, List.filterMap_cons, hq, threshDelta, ThreshState.add,
          Nat.add_assoc]

lemma iou3dAP_update_eq (threshold : ℚ) (s : ThreshState)
    (batch : List Match)
    (h : ∀ m ∈ batch, m.RT.isSome → m.scales.isSome) :
    Iou3dAP.update get_3d_ious threshold s batch =
      .ok (s.add (threshDelta (fun x => decide (x > threshold))
        (iouScoreLists get_3d_ious batch))) := by
  induction batch generalizing s with
  | nil =>
    cases s
    simp [Iou3dAP.update, iouScoreLists, threshDelta, ThreshState.add, pure, Except.pure]
  | cons m t ih =>
    have hm := h m (List.mem_cons_self m t)
    have ht : ∀ x ∈ t, x.RT.isSome → x.scales.isSome := fun x hx => h x (List.mem_cons_of_mem m hx)
    cases s with
    | mk c tot =>
      cases hq : m.RT with
      | none =>
        have hstep : Iou3dAP.step get_3d_ious threshold ⟨c, tot⟩ m = .ok ⟨c, tot⟩ := by
          simp [Iou3dAP.step, hq]
        simp only [Iou3dAP.update, List.foldlM_cons] at ih ⊢
        rw [hstep]
        simp only [bind, Except.bind]
        rw [ih _ ht]
        simp [iouScoreLists, List.filterMap_cons, hq]
      | some rt =>
        cases hs : m.scales with
        | none =>
          exfalso
          have := hm (by simp [hq])
          simp [hs] at this
        | some sc =>
          have hstep : Iou3dAP.step get_3d_ious threshold ⟨c, tot⟩ m =
              .ok ⟨c + (get_3d_ious rt.1 rt.2 sc.1 sc.2).countP (fun x => decide (x > threshold)),
                   tot + (get_3d_ious rt.1 rt.2 sc.1 sc.2).length⟩ := by
            simp [Iou3dAP.step, hq, hs, count_true_map]
          simp only [Iou3dAP.update, List.foldlM_cons] at ih ⊢
          rw [hstep]
          simp only [bind, Except.bind]
          rw [ih _ ht]
          simp [iouScoreLists, List.filterMap_cons, hq, hs, threshDelta, ThreshState.add,
            Nat.add_assoc]

end MetricsLemmas2

section MetricsLemmas3

variable (torch_quat_distance : Tensor → Tensor → Tensor)
variable (get_3d_ious : Tensor → Tensor → Tensor → Tensor → Tensor)
variable (from_RTs_get_T_offset_errors : Tensor → Tensor → Tensor)

lemma degreeError_collect_go (batch : List Match) (a : List Tensor) :
    batch.foldl
      (fun all_degree_distances m =>
        match m.quaternion with
        | none => all_degree_distances
        | some q => all_degree_distances ++ [torch_quat_distance q.1 q.2]) a =
      a ++ quatScoreLists torch_quat_distance batch := by
  induction batch generalizing a with
  | nil => simp [quatScoreLists]
  | cons m t ih =>
    cases hq : m.quaternion with
    | none =>
      simp only [List.foldl_cons, hq]
      rw [ih]
      simp [quatScoreLists, List.filterMap_cons, hq]
    | some q =>
      simp only [List.foldl_cons, hq]
      rw [ih]
      simp [quatScoreLists, List.filterMap_cons, hq]

lemma degreeError_collect_eq (batch : List Match) :
    DegreeError.collect torch_quat_distance batch =
      quatScoreLists torch_quat_distance batch := by
  have h := degreeError_collect_go torch_quat_distance batch []
  simpa [DegreeError.collect] using h

lemma iou3dAccuracy_collect_go (batch : List Match)
    (h : ∀ m ∈ batch, m.RT.isSome → m.scales.isSome) (a : List Tensor) :
    batch.foldlM
      (fun all_ious_3d m =>
        match m.RT with
        | none => .ok all_ious_3d
        | some rt =>
          match m.scales with
          | none => .error (.keyError "scales")
          | some sc =>
            .ok (all_ious_3d ++ [(get_3d_ious rt.1 rt.2 sc.1 sc.2).map (fun x => x * 100)])) a =
      (.ok (a ++ iouScoreLists100 get_3d_ious batch) : Except MetricError (List Tensor)) := by
  induction batch generalizing a with
  | nil => simp [iouScoreLists100, pure, Except.pure]
  | cons m t ih =>
    have hm := h m (List.mem_cons_self m t)
    have ht : ∀ x ∈ t, x.RT.isSome → x.scales.isSome := fun x hx => h x (List.mem_cons_of_mem m hx)
    cases hq : m.RT with
    | none =>
      simp only [List.foldlM_cons, hq, bind, Except.bind]
      rw [ih ht]
      simp [iouScoreLists100, List.filterMap_cons, hq]
    | some rt =>
      cases hs : m.scales with
      | none =>
        exfalso
        have := hm (by simp [hq])
        simp [hs] at this
      | some sc =>
        simp only [List.foldlM_cons, hq, hs, bind, Except.bind]
        rw [ih ht]
        simp [iouScoreLists100, List.filterMap_cons, hq, hs]

lemma iou3dAccuracy_collect_eq (batch : List Match)
    (h : ∀ m ∈ batch, m.RT.isSome → m.scales.isSome) :
    Iou3dAccuracy.collect get_3d_ious batch =
      .ok (iouScoreLists100 get_3d_ious batch) := by
  have hgo := iou3dAccuracy_collect_go get_3d_ious batch h []
  simpa [Iou3dAccuracy.collect] using hgo

lemma offsetError_update_eq (r : ℚ) (batch : List Match) :
    OffsetError.update from_RTs_get_T_offset_errors r batch =
      blendFold r (offsetSlotMeans from_RTs_get_T_offset_errors batch) := by
  induction batch generalizing r with
  | nil => simp [OffsetError.update, offsetSlotMeans, rtScoreLists, blendFold]
  | cons m t ih =>
    cases hq : m.RT with
    | none =>
      simp only [OffsetError.update, List.foldl_cons] at ih ⊢
      have hstep : OffsetError.step from_RTs_get_T_offset_errors r m = r := by
        simp [OffsetError.step, hq]
      rw [hstep, ih]
      simp [offsetSlotMeans, rtScoreLists, List.filterMap_cons, hq]
    | some rt =>
      simp only [OffsetError.update, List.foldl_cons] at ih ⊢
      have hstep : OffsetError.step from_RTs_get_T_offset_errors r m =
          (r + torch_mean (from_RTs_get_T_offset_errors rt.1 rt.2)) / 2 := by
        simp [OffsetError.step, hq]
      rw [hstep, ih]
      simp [offsetSlotMeans, rtScoreLists, List.filterMap_cons, hq, blendFold]

end MetricsLemmas3

lemma blendFold_closed (r : ℚ) (ms : List ℚ) :
    blendFold r ms =
      r / 2 ^ ms.length +
        ∑ i ∈ Finset.range ms.length, ms.getD i 0 / 2 ^ (ms.length - i) := by
  induction ms generalizing r with
  | nil => simp [blendFold]
  | cons m t ih =>
    have h := ih ((r + m) / 2)
    simp only [blendFold, List.foldl] at h ⊢
    simp only [List.length_cons]
    rw [h, Finset.sum_range_succ' (fun i => (m :: t).getD i 0 / 2 ^ (t.length + 1 - i)) t.length]
    simp only [List.getD_cons_succ, List.getD_cons_zero, Nat.sub_zero]
    have h2 : ∀ i ∈ Finset.range t.length,
        (t.getD i 0 : ℚ) / 2 ^ (t.length + 1 - (i + 1)) = t.getD i 0 / 2 ^ (t.length - i) := by
      intro i hi
      congr 2
      omega
    rw [Finset.sum_congr rfl h2]
    ring

lemma foldl_add_shift {α : Type} (d : α → ThreshState) (s : ThreshState) (bs : List α) :
    bs.foldl (fun t b => t.add (d b)) s =
      s.add (bs.foldl (fun t b => t.add (d b)) initThreshState) := by
  induction bs generalizing s with
  | nil => cases s; simp [ThreshState.add, initThreshState]
  | cons b t ih =>
    simp only [List.foldl_cons]
    rw [ih (s.add (d b)), ih (initThreshState.add (d b)), ThreshState.init_add,
      ThreshState.add_assoc]

lemma foldl_add_total {α : Type} (d : α → ThreshState) (s : ThreshState) (bs : List α) :
    (bs.foldl (fun t b => t.add (d b)) s).total =
      s.total + (bs.map (fun b => (d b).total)).sum := by
  induction bs generalizing s with
  | nil => simp
  | cons b t ih =>
    simp only [List.foldl_cons, List.map_cons, List.sum_cons]
    rw [ih]
    simp [ThreshState.add, Nat.add_assoc]

lemma foldl_add_correct {α : Type} (d : α → ThreshState) (s : ThreshState) (bs : List α) :
    (bs.foldl (fun t b => t.add (d b)) s).correct =
      s.correct + (bs.map (fun b => (d b).correct)).sum := by
  induction bs generalizing s with
  | nil => simp
  | cons b t ih =>
    simp only [List.foldl_cons, List.map_cons, List.sum_cons]
    rw [ih]
    simp [ThreshState.add, Nat.add_assoc]

lemma threshDelta_correct_le_total (p : ℚ → Bool) (ls : List Tensor) :
    (threshDelta p ls).correct ≤ (threshDelta p ls).total := by
  simp only [threshDelta]
  exact List.sum_le_sum (fun l _ => List.countP_le_length p)

section MetricsLemmas4

variable (torch_quat_distance : Tensor → Tensor → Tensor)
variable (get_3d_ious : Tensor → Tensor → Tensor → Tensor → Tensor)
variable (from_RTs_get_T_offset_errors : Tensor → Tensor → Tensor)

lemma degreeErrorMeanAP_run_eq (threshold : ℚ) (s : ThreshState)
    (batches : List (List Match)) :
    DegreeErrorMeanAP.run torch_quat_distance threshold s batches =
      batches.foldl
        (fun t b => t.add (threshDelta (fun x => decide (x < threshold))
          (quatScoreLists torch_quat_distance b))) s := by
  induction batches generalizing s with
  | nil => rfl
  | cons b t ih =>
    simp only [DegreeErrorMeanAP.run, List.foldl_cons] at ih ⊢
    rw [degreeErrorMeanAP_update_eq, ih]

lemma offsetAP_run_eq (threshold : ℚ) (s : ThreshState)
    (batches : List (List Match)) :
    OffsetAP.run from_RTs_get_T_offset_errors threshold s batches =
      batches.foldl
        (fun t b => t.add (threshDelta (fun x => decide (x < threshold))
          (rtScoreLists from_RTs_get_T_offset_errors b))) s := by
  induction batches generalizing s with
  | nil => rfl
  | cons b t ih =>
    simp only [OffsetAP.run, List.foldl_cons] at ih ⊢
    rw [offsetAP_update_eq, ih]

lemma iou3dAP_run_eq (threshold : ℚ) (s : ThreshState)
    (batches : List (List Match))
    (h : ∀ b ∈ batches, ∀ m ∈ b, m.RT.isSome → m.scales.isSome) :
    Iou3dAP.run get_3d_ious threshold s batches =
      .ok (batches.foldl
        (fun t b => t.add (threshDelta (fun x => decide (x > threshold))
          (iouScoreLists get_3d_ious b))) s) := by
  induction batches generalizing s with
  | nil => simp [Iou3dAP.run, pure, Except.pure]
  | cons b t ih =>
    have hb := h b (List.mem_cons_self b t)
    have ht : ∀ x ∈ t, ∀ m ∈ x, m.RT.isSome → m.scales.isSome :=
      fun x hx => h x (List.mem_cons_of_mem b hx)
    simp only [Iou3dAP.run, List.foldlM_cons] at ih ⊢
    rw [iou3dAP_update_eq get_3d_ious threshold s b hb]
    simp only [bind, Except.bind]
    rw [ih _ ht]
    rfl

lemma iou3dAP_state_mono (threshold : ℚ) (batch : List Match) (s : ThreshState) :
    s.correct ≤ (exceptState (Iou3dAP.update get_3d_ious threshold s batch)).correct ∧
    s.total ≤ (exceptState (Iou3dAP.update get_3d_ious threshold s batch)).total ∧
    (s.correct ≤ s.total →
      (exceptState (Iou3dAP.update get_3d_ious threshold s batch)).correct ≤
        (exceptState (Iou3dAP.update get_3d_ious threshold s batch)).total) := by
  induction batch generalizing s with
  | nil =>
    simp [Iou3dAP.update, exceptState, pure, Except.pure]
  | cons m t ih =>
    cases hq : m.RT with
    | none =>
      have hstep : Iou3dAP.step get_3d_ious threshold s m = .ok s := by
        simp [Iou3dAP.step, hq]
      simp only [Iou3dAP.update, List.foldlM_cons, hstep, bind, Except.bind] at ih ⊢
      exact ih s
    | some rt =>
      cases hs : m.scales with
      | none =>
        have hstep : Iou3dAP.step get_3d_ious threshold s m = .error s := by
          simp [Iou3dAP.step, hq, hs]
        simp only [Iou3dAP.update, List.foldlM_cons, hstep, bind, Except.bind]
        simp [exceptState]
      | some sc =>
        have hstep : Iou3dAP.step get_3d_ious threshold s m =
            .ok ⟨s.correct + (get_3d_ious rt.1 rt.2 sc.1 sc.2).countP
                   (fun x => decide (x > threshold)),
                 s.total + (get_3d_ious rt.1 rt.2 sc.1 sc.2).length⟩ := by
          simp [Iou3dAP.step, hq, hs, count_true_map]
        simp only [Iou3dAP.update, List.foldlM_cons, hstep, bind, Except.bind] at ih ⊢
        set s' : ThreshState :=
          ⟨s.correct + (get_3d_ious rt.1 rt.2 sc.1 sc.2).countP
             (fun x => decide (x > threshold)),
           s.total + (get_3d_ious rt.1 rt.2 sc.1 sc.2).length⟩ with hs'
        obtain ⟨h1, h2, h3⟩ := ih s'
        refine ⟨le_trans (Nat.le_add_right _ _) h1, le_trans (Nat.le_add_right _ _) h2, ?_⟩
        intro hle
        apply h3
        simp only [hs']
        exact Nat.add_le_add hle (List.countP_le_length _)

end MetricsLemmas4

/-- C3: every threshold accumulator scores each non-skipped slot
elementwise against its threshold — strictly below for the rotation and
offset variants, strictly above for the iou variant — adding the pass
count to `correct` and the instance count to `total`; in the
rotation example with threshold 5 and errors [3, 7, 4.5] the counters
gain 2 and 3 and `compute` reports 200/3. -/
theorem C3_threshold_update_rule
    (torch_quat_distance : Tensor → Tensor → Tensor)
    (get_3d_ious : Tensor → Tensor → Tensor → Tensor → Tensor)
    (from_RTs_get_T_offset_errors : Tensor → Tensor → Tensor)
    (threshold : ℚ) (s : ThreshState) (batch : List Match)
    (hsc : ∀ m ∈ batch, m.RT.isSome → m.scales.isSome) :
    DegreeErrorMeanAP.update torch_quat_distance threshold s batch =
      ⟨s.correct + ((quatScoreLists torch_quat_distance batch).map
          (fun l => l.countP (fun x => decide (x < threshold)))).sum,
        s.total + ((quatScoreLists torch_quat_distance batch).map List.length).sum⟩ ∧
    OffsetAP.update from_RTs_get_T_offset_errors threshold s batch =
      ⟨s.correct + ((rtScoreLists from_RTs_get_T_offset_errors batch).map
          (fun l => l.countP (fun x => decide (x < threshold)))).sum,
        s.total + ((rtScoreLists from_RTs_get_T_offset_errors batch).map List.length).sum⟩ ∧
    Iou3dAP.update get_3d_ious threshold s batch =
      .ok ⟨s.correct + ((iouScoreLists get_3d_ious batch).map
          (fun l => l.countP (fun x => decide (x > threshold)))).sum,
        s.total + ((iouScoreLists get_3d_ious batch).map List.length).sum⟩ ∧
    (∀ q0 q1 : Tensor, torch_quat_distance q0 q1 = [3, 7, 9/2] →
      DegreeErrorMeanAP.update torch_quat_distance 5 initThreshState [emptySlot, qSlot q0 q1] =
        ⟨2, 3⟩ ∧
      (DegreeErrorMeanAP.compute ⟨2, 3⟩).1 = 200 / 3) := by
  refine ⟨?_, ?_, ?_, ?_⟩
  · rw [degreeErrorMeanAP_update_eq]
    simp [ThreshState.add, threshDelta]
  · rw [offsetAP_update_eq]
    simp [ThreshState.add, threshDelta]
  · rw [iou3dAP_update_eq get_3d_ious threshold s batch hsc]
    simp [ThreshState.add, threshDelta]
  · intro q0 q1 hq
    constructor
    · rw [degreeErrorMeanAP_update_eq]
      simp only [quatScoreLists, emptySlot, qSlot, List.filterMap_cons, List.filterMap_nil,
        Option.map_some, Option.map_none, hq]
      norm_num [hq, threshDelta, ThreshState.add, initThreshState, List.countP, List.countP.go]
    · norm_num [DegreeErrorMeanAP.compute]

/-- C3 witness at a concrete scorer, threshold 5 and the example
batch. -/
theorem C3_witness :
    DegreeErrorMeanAP.update fstScore 5 initThreshState [emptySlot, qSlot [3, 7, 9/2] []] =
      ⟨2, 3⟩ ∧
    (DegreeErrorMeanAP.compute ⟨2, 3⟩).1 = 200 / 3 :=
  (C3_threshold_update_rule fstScore fstScore4 fstScore 5 initThreshState
      [emptySlot, qSlot [3, 7, 9/2] []] (by decide)).2.2.2 [3, 7, 9/2] [] rfl

/-- C4: for the threshold accumulators `compute` reports
`100 * correct / total` (meaningful only when `total` is nonzero), and
for the running-mean accumulators it reports the register itself. -/
theorem C4_compute_values (s : ThreshState) (h : s.total ≠ 0) (e a o : ℚ) :
    (DegreeErrorMeanAP.compute s).1 = 100 * s.correct / s.total ∧
    (Iou3dAP.compute s).1 = 100 * s.correct / s.total ∧
    (OffsetAP.compute s).1 = 100 * s.correct / s.total ∧
    (DegreeError.compute e).1 = e ∧
    (Iou3dAccuracy.compute a).1 = a ∧
    (OffsetError.compute o).1 = o := by
  refine ⟨?_, ?_, ?_, rfl, rfl, rfl⟩ <;>
    simp [DegreeErrorMeanAP.compute, Iou3dAP.compute, OffsetAP.compute] <;> ring

/-- C4 witness at the state (1, 2) and register 7. -/
theorem C4_witness :
    (DegreeErrorMeanAP.compute ⟨1, 2⟩).1 = 100 * (1 : ℚ) / 2 ∧
    (Iou3dAP.compute ⟨1, 2⟩).1 = 100 * (1 : ℚ) / 2 ∧
    (OffsetAP.compute ⟨1, 2⟩).1 = 100 * (1 : ℚ) / 2 ∧
    (DegreeError.compute 7).1 = 7 ∧
    (Iou3dAccuracy.compute 7).1 = 7 ∧
    (OffsetError.compute 7).1 = 7 := by
  have h := C4_compute_values ⟨1, 2⟩ (by decide) 7 7 7
  simpa using h

/-- C8: no `compute` method mutates accumulator state, so two
back-to-back calls report the same value. -/
theorem C8_compute_does_not_mutate :
    ∀ (s : ThreshState) (e a o : ℚ),
      (DegreeErrorMeanAP.compute s).2 = s ∧
      (DegreeErrorMeanAP.compute ((DegreeErrorMeanAP.compute s).2)).1 =
        (DegreeErrorMeanAP.compute s).1 ∧
      (Iou3dAP.compute s).2 = s ∧
      (Iou3dAP.compute ((Iou3dAP.compute s).2)).1 = (Iou3dAP.compute s).1 ∧
      (OffsetAP.compute s).2 = s ∧
      (OffsetAP.compute ((OffsetAP.compute s).2)).1 = (OffsetAP.compute s).1 ∧
      (DegreeError.compute e).2 = e ∧
      (DegreeError.compute ((DegreeError.compute e).2)).1 = (DegreeError.compute e).1 ∧
      (Iou3dAccuracy.compute a).2 = a ∧
      (Iou3dAccuracy.compute ((Iou3dAccuracy.compute a).2)).1 = (Iou3dAccuracy.compute a).1 ∧
      (OffsetError.compute o).2 = o ∧
      (OffsetError.compute ((OffsetError.compute o).2)).1 = (OffsetError.compute o).1 :=
  fun _ _ _ _ => ⟨rfl, rfl, rfl, rfl, rfl, rfl, rfl, rfl, rfl, rfl, rfl, rfl⟩

/-- C10: the iou metrics skip a slot only when `RT` is absent; a slot
carrying `RT` without `scales` raises the `scales` key lookup instead of
being skipped, while a slot without `RT` is skipped even if it carries
`scales`. -/
theorem C10_iou_skip_decided_by_RT_only :
    ∀ (get_3d_ious : Tensor → Tensor → Tensor → Tensor → Tensor) (threshold a : ℚ)
      (s : ThreshState) (q sc : Option (Tensor × Tensor)) (rt : Tensor × Tensor),
      Iou3dAP.update get_3d_ious threshold s [⟨q, some rt, none⟩] = .error s ∧
      Iou3dAccuracy.update get_3d_ious a [⟨q, some rt, none⟩] = .error (.keyError "scales") ∧
      Iou3dAP.update get_3d_ious threshold s [⟨q, none, sc⟩] = .ok s ∧
      Iou3dAccuracy.update get_3d_ious a [⟨q, none, sc⟩] = .error .emptyScoreSet :=
  fun _ _ _ _ _ _ _ => ⟨rfl, rfl, rfl, rfl⟩

/-- C5: for every threshold accumulator both counters only grow across
update calls, `correct` never exceeds `total`, and starting from reset
the total after a sequence of updates is the summed instance count of
all non-skipped slots seen. -/
theorem C5_counter_invariants
    (torch_quat_distance : Tensor → Tensor → Tensor)
    (get_3d_ious : Tensor → Tensor → Tensor → Tensor → Tensor)
    (from_RTs_get_T_offset_errors : Tensor → Tensor → Tensor)
    (threshold : ℚ) :
    (∀ (s : ThreshState) (batch : List Match),
      s.correct ≤ (DegreeErrorMeanAP.update torch_quat_distance threshold s batch).correct ∧
      s.total ≤ (DegreeErrorMeanAP.update torch_quat_distance threshold s batch).total ∧
      (s.correct ≤ s.total →
        (DegreeErrorMeanAP.update torch_quat_distance threshold s batch).correct ≤
          (DegreeErrorMeanAP.update torch_quat_distance threshold s batch).total)) ∧
    (∀ (s : ThreshState) (batch : List Match),
      s.correct ≤ (OffsetAP.update from_RTs_get_T_offset_errors threshold s batch).correct ∧
      s.total ≤ (OffsetAP.update from_RTs_get_T_offset_errors threshold s batch).total ∧
      (s.correct ≤ s.total →
        (OffsetAP.update from_RTs_get_T_offset_errors threshold s batch).correct ≤
          (OffsetAP.update from_RTs_get_T_offset_errors threshold s batch).total)) ∧
    (∀ (s : ThreshState) (batch : List Match),
      s.correct ≤ (exceptState (Iou3dAP.update get_3d_ious threshold s batch)).correct ∧
      s.total ≤ (exceptState (Iou3dAP.update get_3d_ious threshold s batch)).total ∧
      (s.correct ≤ s.total →
        (exceptState (Iou3dAP.update get_3d_ious threshold s batch)).correct ≤
          (exceptState (Iou3dAP.update get_3d_ious threshold s batch)).total)) ∧
    (∀ batches : List (List Match),
      (DegreeErrorMeanAP.run torch_quat_distance threshold initThreshState batches).correct ≤
        (DegreeErrorMeanAP.run torch_quat_distance threshold initThreshState batches).total ∧
      (DegreeErrorMeanAP.run torch_quat_distance threshold initThreshState batches).total =
        (batches.map (fun b =>
          ((quatScoreLists torch_quat_distance b).map List.length).sum)).sum) ∧
    (∀ batches : List (List Match),
      (OffsetAP.run from_RTs_get_T_offset_errors threshold initThreshState batches).correct ≤
        (OffsetAP.run from_RTs_get_T_offset_errors threshold initThreshState batches).total ∧
      (OffsetAP.run from_RTs_get_T_offset_errors threshold initThreshState batches).total =
        (batches.map (fun b =>
          ((rtScoreLists from_RTs_get_T_offset_errors b).map List.length).sum)).sum) ∧
    (∀ batches : List (List Match),
      (∀ b ∈ batches, ∀ m ∈ b, m.RT.isSome → m.scales.isSome) →
      (exceptState (Iou3dAP.run get_3d_ious threshold initThreshState batches)).correct ≤
        (exceptState (Iou3dAP.run get_3d_ious threshold initThreshState batches)).total ∧
      (exceptState (Iou3dAP.run get_3d_ious threshold initThreshState batches)).total =
        (batches.map (fun b =>
          ((iouScoreLists get_3d_ious b).map List.length).sum)).sum) := by
  refine ⟨?_, ?_, ?_, ?_, ?_, ?_⟩
  · intro s batch
    rw [degreeErrorMeanAP_update_eq]
    refine ⟨Nat.le_add_right _ _, Nat.le_add_right _ _, fun hle => ?_⟩
    exact Nat.add_le_add hle (threshDelta_correct_le_total _ _)
  · intro s batch
    rw [offsetAP_update_eq]
    refine ⟨Nat.le_add_right _ _, Nat.le_add_right _ _, fun hle => ?_⟩
    exact Nat.add_le_add hle (threshDelta_correct_le_total _ _)
  · intro s batch
    exact iou3dAP_state_mono get_3d_ious threshold batch s
  · intro batches
    rw [degreeErrorMeanAP_run_eq]
    rw [foldl_add_total, foldl_add_correct]
    constructor
    · simp only [initThreshState, Nat.zero_add]
      exact List.sum_le_sum (fun b _ => by
        simpa using threshDelta_correct_le_total
          (fun x => decide (x < threshold)) (quatScoreLists torch_quat_distance b))
    · simp [initThreshState, threshDelta]
  · intro batches
    rw [offsetAP_run_eq]
    rw [foldl_add_total, foldl_add_correct]
    constructor
    · simp only [initThreshState, Nat.zero_add]
      exact List.sum_le_sum (fun b _ => by
        simpa using threshDelta_correct_le_total
          (fun x => decide (x < threshold)) (rtScoreLists from_RTs_get_T_offset_errors b))
    · simp [initThreshState, threshDelta]
  · intro batches h
    rw [iou3dAP_run_eq get_3d_ious threshold initThreshState batches h]
    simp only [exceptState]
    rw [foldl_add_total, foldl_add_correct]
    constructor
    · simp only [initThreshState, Nat.zero_add]
      exact List.sum_le_sum (fun b _ => by
        simpa using threshDelta_correct_le_total
          (fun x => decide (x > threshold)) (iouScoreLists get_3d_ious b))
    · simp [initThreshState, threshDelta]

/-- C5 witness at concrete scorers and batches. -/
theorem C5_witness :
    (3 : ℕ) ≤ (DegreeErrorMeanAP.update fstScore 5 ⟨3, 4⟩ [qSlot [1] []]).correct ∧
    (4 : ℕ) ≤ (DegreeErrorMeanAP.update fstScore 5 ⟨3, 4⟩ [qSlot [1] []]).total ∧
    (DegreeErrorMeanAP.update fstScore 5 ⟨3, 4⟩ [qSlot [1] []]).correct ≤
      (DegreeErrorMeanAP.update fstScore 5 ⟨3, 4⟩ [qSlot [1] []]).total ∧
    (DegreeErrorMeanAP.run fstScore 5 initThreshState [[qSlot [1] []], [qSlot [9] []]]).total =
      2 ∧
    (exceptState (Iou3dAP.run fstScore4 (1/2) initThreshState [[rtScalesSlot [1] [] [] []]])).correct ≤
      (exceptState (Iou3dAP.run fstScore4 (1/2) initThreshState [[rtScalesSlot [1] [] [] []]])).total := by
  obtain ⟨h1, h2, h3, h4, h5, h6⟩ := C5_counter_invariants fstScore fstScore4 fstScore 5
  obtain ⟨ha, hb, hc⟩ := h1 ⟨3, 4⟩ [qSlot [1] []]
  refine ⟨ha, hb, hc (by decide), ?_, ?_⟩
  · rw [(h4 [[qSlot [1] []], [qSlot [9] []]]).2]
    norm_num [quatScoreLists, qSlot, fstScore, List.filterMap_cons]
  · exact ((C5_counter_invariants fstScore fstScore4 fstScore (1/2)).2.2.2.2.2
      [[rtScalesSlot [1] [] [] []]] (by decide)).1

/-- C6: summing two independently accumulated threshold counter states
field-wise and computing equals computing after processing the
concatenated batch stream in one accumulator. -/
theorem C6_reduction_correct
    (torch_quat_distance : Tensor → Tensor → Tensor)
    (get_3d_ious : Tensor → Tensor → Tensor → Tensor → Tensor)
    (from_RTs_get_T_offset_errors : Tensor → Tensor → Tensor)
    (threshold : ℚ) (B1 B2 : List (List Match))
    (hsc : ∀ b ∈ B1 ++ B2, ∀ m ∈ b, m.RT.isSome → m.scales.isSome) :
    (DegreeErrorMeanAP.compute
        ((DegreeErrorMeanAP.run torch_quat_distance threshold initThreshState B1).add
          (DegreeErrorMeanAP.run torch_quat_distance threshold initThreshState B2))).1 =
      (DegreeErrorMeanAP.compute
        (DegreeErrorMeanAP.run torch_quat_distance threshold initThreshState (B1 ++ B2))).1 ∧
    (OffsetAP.compute
        ((OffsetAP.run from_RTs_get_T_offset_errors threshold initThreshState B1).add
          (OffsetAP.run from_RTs_get_T_offset_errors threshold initThreshState B2))).1 =
      (OffsetAP.compute
        (OffsetAP.run from_RTs_get_T_offset_errors threshold initThreshState (B1 ++ B2))).1 ∧
    (Iou3dAP.compute
        ((exceptState (Iou3dAP.run get_3d_ious threshold initThreshState B1)).add
          (exceptState (Iou3dAP.run get_3d_ious threshold initThreshState B2)))).1 =
      (Iou3dAP.compute
        (exceptState (Iou3dAP.run get_3d_ious threshold initThreshState (B1 ++ B2)))).1 := by
  have h1 : ∀ b ∈ B1, ∀ m ∈ b, m.RT.isSome → m.scales.isSome :=
    fun b hb => hsc b (List.mem_append_left _ hb)
  have h2 : ∀ b ∈ B2, ∀ m ∈ b, m.RT.isSome → m.scales.isSome :=
    fun b hb => hsc b (List.mem_append_right _ hb)
  refine ⟨?_, ?_, ?_⟩
  · have e1 : DegreeErrorMeanAP.run torch_quat_distance threshold initThreshState (B1 ++ B2) =
        (DegreeErrorMeanAP.run torch_quat_distance threshold initThreshState B1).add
          (DegreeErrorMeanAP.run torch_quat_distance threshold initThreshState B2) := by
      rw [degreeErrorMeanAP_run_eq, degreeErrorMeanAP_run_eq, degreeErrorMeanAP_run_eq,
        List.foldl_append]
      exact foldl_add_shift _ _ _
    rw [e1]
  · have e2 : OffsetAP.run from_RTs_get_T_offset_errors threshold initThreshState (B1 ++ B2) =
        (OffsetAP.run from_RTs_get_T_offset_errors threshold initThreshState B1).add
          (OffsetAP.run from_RTs_get_T_offset_errors threshold initThreshState B2) := by
      rw [offsetAP_run_eq, offsetAP_run_eq, offsetAP_run_eq, List.foldl_append]
      exact foldl_add_shift _ _ _
    rw [e2]
  · rw [iou3dAP_run_eq get_3d_ious threshold initThreshState B1 h1,
      iou3dAP_run_eq get_3d_ious threshold initThreshState B2 h2,
      iou3dAP_run_eq get_3d_ious threshold initThreshState (B1 ++ B2) hsc]
    simp only [exceptState]
    rw [List.foldl_append]
    congr 2
    exact (foldl_add_shift _ _ _).symm

/-- C6 witness: two one-batch shards whose merged report is 50. -/
theorem C6_witness :
    (DegreeErrorMeanAP.compute
        ((DegreeErrorMeanAP.run fstScore 5 initThreshState [[qSlot [3] []]]).add
          (DegreeErrorMeanAP.run fstScore 5 initThreshState [[qSlot [7] []]]))).1 =
      (DegreeErrorMeanAP.compute
        (DegreeErrorMeanAP.run fstScore 5 initThreshState
          ([[qSlot [3] []]] ++ [[qSlot [7] []]]))).1 ∧
    (DegreeErrorMeanAP.compute
        (DegreeErrorMeanAP.run fstScore 5 initThreshState
          ([[qSlot [3] []]] ++ [[qSlot [7] []]]))).1 = 50 := by
  constructor
  · exact (C6_reduction_correct fstScore fstScore4 fstScore 5
      [[qSlot [3] []]] [[qSlot [7] []]] (by decide)).1
  · norm_num [DegreeErrorMeanAP.run, DegreeErrorMeanAP.update, DegreeErrorMeanAP.step,
      DegreeErrorMeanAP.compute, qSlot, fstScore, initThreshState, List.foldl,
      List.countP, List.countP.go]

/-- C7: threshold accumulators skip slots lacking their field without
touching the counters — an all-skipped batch is a no-op — and a batch
whose only live slot has one passing instance adds exactly one to each
counter. -/
theorem C7_skip_and_single_instance
    (torch_quat_distance : Tensor → Tensor → Tensor)
    (get_3d_ious : Tensor → Tensor → Tensor → Tensor → Tensor)
    (from_RTs_get_T_offset_errors : Tensor → Tensor → Tensor)
    (threshold : ℚ) :
    (∀ (s : ThreshState) (batch : List Match), (∀ m ∈ batch, m.quaternion = none) →
      DegreeErrorMeanAP.update torch_quat_distance threshold s batch = s) ∧
    (∀ (s : ThreshState) (batch : List Match), (∀ m ∈ batch, m.RT = none) →
      OffsetAP.update from_RTs_get_T_offset_errors threshold s batch = s) ∧
    (∀ (s : ThreshState) (batch : List Match), (∀ m ∈ batch, m.RT = none) →
      Iou3dAP.update get_3d_ious threshold s batch = .ok s) ∧
    (∀ (s : ThreshState) (q0 q1 : Tensor) (x : ℚ),
      torch_quat_distance q0 q1 = [x] → x < threshold →
      DegreeErrorMeanAP.update torch_quat_distance threshold s [emptySlot, qSlot q0 q1] =
        ⟨s.correct + 1, s.total + 1⟩) ∧
    (∀ (s : ThreshState) (g0 g1 : Tensor) (x : ℚ),
      from_RTs_get_T_offset_errors g0 g1 = [x] → x < threshold →
      OffsetAP.update from_RTs_get_T_offset_errors threshold s [emptySlot, rtSlot g0 g1] =
        ⟨s.correct + 1, s.total + 1⟩) ∧
    (∀ (s : ThreshState) (g0 g1 s0 s1 : Tensor) (x : ℚ),
      get_3d_ious g0 g1 s0 s1 = [x] → x > threshold →
      Iou3dAP.update get_3d_ious threshold s [emptySlot, rtScalesSlot g0 g1 s0 s1] =
        .ok ⟨s.correct + 1, s.total + 1⟩) := by
  refine ⟨?_, ?_, ?_, ?_, ?_, ?_⟩
  · intro s batch h
    rw [degreeErrorMeanAP_update_eq]
    have hnil : quatScoreLists torch_quat_distance batch = [] := by
      simp only [quatScoreLists, List.filterMap_eq_nil_iff]
      intro m hm
      simp [h m hm]
    rw [hnil]
    cases s
    simp [threshDelta, ThreshState.add]
  · intro s batch h
    rw [offsetAP_update_eq]
    have hnil : rtScoreLists from_RTs_get_T_offset_errors batch = [] := by
      simp only [rtScoreLists, List.filterMap_eq_nil_iff]
      intro m hm
      simp [h m hm]
    rw [hnil]
    cases s
    simp [threshDelta, ThreshState.add]
  · intro s batch h
    have hsc : ∀ m ∈ batch, m.RT.isSome → m.scales.isSome := by
      intro m hm hsome
      rw [h m hm] at hsome
      simp at hsome
    rw [iou3dAP_update_eq get_3d_ious threshold s batch hsc]
    have hnil : iouScoreLists get_3d_ious batch = [] := by
      simp only [iouScoreLists, List.filterMap_eq_nil_iff]
      intro m hm
      simp [h m hm]
    rw [hnil]
    cases s
    simp [threshDelta, ThreshState.add]
  · intro s q0 q1 x hx hlt
    rw [degreeErrorMeanAP_update_eq]
    have hs : quatScoreLists torch_quat_distance [emptySlot, qSlot q0 q1] = [[x]] := by
      simp [quatScoreLists, List.filterMap_cons, emptySlot, qSlot, hx]
    rw [hs]
    cases s
    simp [threshDelta, ThreshState.add, List.countP_cons, hlt]
  · intro s g0 g1 x hx hlt
    rw [offsetAP_update_eq]
    have hs : rtScoreLists from_RTs_get_T_offset_errors [emptySlot, rtSlot g0 g1] = [[x]] := by
      simp [rtScoreLists, List.filterMap_cons, emptySlot, rtSlot, hx]
    rw [hs]
    cases s
    simp [threshDelta, ThreshState.add, List.countP_cons, hlt]
  · intro s g0 g1 s0 s1 x hx hgt
    have hsc : ∀ m ∈ [emptySlot, rtScalesSlot g0 g1 s0 s1],
        m.RT.isSome → m.scales.isSome := by
      intro m hm
      simp only [List.mem_cons, List.not_mem_nil, or_false] at hm
      rcases hm with rfl | rfl
      · simp [emptySlot]
      · simp [rtScalesSlot]
    rw [iou3dAP_update_eq get_3d_ious threshold s _ hsc]
    have hs : iouScoreLists get_3d_ious [emptySlot, rtScalesSlot g0 g1 s0 s1] = [[x]] := by
      simp [iouScoreLists, List.filterMap_cons, emptySlot, rtScalesSlot, hx]
    rw [hs]
    cases s
    simp [threshDelta, ThreshState.add, List.countP_cons, hgt]

/-- C7 witness at concrete batches. -/
theorem C7_witness :
    DegreeErrorMeanAP.update fstScore 5 ⟨0, 0⟩ [emptySlot, emptySlot] = ⟨0, 0⟩ ∧
    DegreeErrorMeanAP.update fstScore 5 ⟨0, 0⟩ [emptySlot, qSlot [3] []] = ⟨1, 1⟩ ∧
    OffsetAP.update fstScore 5 ⟨2, 5⟩ [emptySlot, rtSlot [3] []] = ⟨3, 6⟩ ∧
    Iou3dAP.update fstScore4 (1/2) ⟨0, 0⟩ [emptySlot, rtScalesSlot [1] [] [] []] =
      .ok ⟨1, 1⟩ := by
  obtain ⟨h1, h2, h3, h4, h5, h6⟩ :=
    C7_skip_and_single_instance fstScore fstScore4 fstScore 5
  refine ⟨h1 ⟨0, 0⟩ [emptySlot, emptySlot] (by decide), ?_, ?_, ?_⟩
  · simpa using h4 ⟨0, 0⟩ [3] [] 3 rfl (by norm_num)
  · simpa using h5 ⟨2, 5⟩ [3] [] 3 rfl (by norm_num)
  · simpa using (C7_skip_and_single_instance fstScore fstScore4 fstScore
      (1/2)).2.2.2.2.2 ⟨0, 0⟩ [1] [] [] [] 1 rfl (by norm_num)

/-- C1 counterexample: on a two-slot batch with per-slot offset scores
[0] and [4] and register 0, `OffsetError.update` returns 2 (it blends
once per slot), while the claimed once-per-update blend of the flat
mean returns 1. -/
theorem C1_counterexample :
    OffsetError.update fstScore 0 [rtSlot [0] [0], rtSlot [4] [4]] = 2 ∧
    specRunningMeanBlend (rtScoreLists fstScore [rtSlot [0] [0], rtSlot [4] [4]]) 0 = 1 ∧
    OffsetError.update fstScore 0 [rtSlot [0] [0], rtSlot [4] [4]] ≠
      specRunningMeanBlend (rtScoreLists fstScore [rtSlot [0] [0], rtSlot [4] [4]]) 0 := by
  have e1 : OffsetError.update fstScore 0 [rtSlot [0] [0], rtSlot [4] [4]] = 2 := by
    norm_num [OffsetError.update, OffsetError.step, rtSlot, fstScore, torch_mean,
      List.foldl_cons, List.foldl_nil]
  have e2 : specRunningMeanBlend (rtScoreLists fstScore [rtSlot [0] [0], rtSlot [4] [4]]) 0 = 1 := by
    norm_num [specRunningMeanBlend, rtScoreLists, List.filterMap_cons, rtSlot, fstScore,
      torch_mean]
  exact ⟨e1, e2, by rw [e1, e2]; norm_num⟩

/-- C1 amended: `DegreeError` and `Iou3dAccuracy` concatenate the
non-skipped score sequences, take the flat mean (iou scores already
rescaled by 100) and blend once per update, the first update after
reset yielding half that mean; `OffsetError` instead blends once per
non-skipped class slot. -/
theorem C1_amended_running_mean_blend
    (torch_quat_distance : Tensor → Tensor → Tensor)
    (get_3d_ious : Tensor → Tensor → Tensor → Tensor → Tensor)
    (from_RTs_get_T_offset_errors : Tensor → Tensor → Tensor)
    (e a r : ℚ) (batch : List Match)
    (hq : quatScoreLists torch_quat_distance batch ≠ [])
    (hsc : ∀ m ∈ batch, m.RT.isSome → m.scales.isSome)
    (hi : iouScoreLists100 get_3d_ious batch ≠ []) :
    DegreeError.update torch_quat_distance e batch =
      .ok (specRunningMeanBlend (quatScoreLists torch_quat_distance batch) e) ∧
    DegreeError.update torch_quat_distance 0 batch =
      .ok (torch_mean (quatScoreLists torch_quat_distance batch).flatten / 2) ∧
    Iou3dAccuracy.update get_3d_ious a batch =
      .ok (specRunningMeanBlend (iouScoreLists100 get_3d_ious batch) a) ∧
    Iou3dAccuracy.update get_3d_ious 0 batch =
      .ok (torch_mean (iouScoreLists100 get_3d_ious batch).flatten / 2) ∧
    OffsetError.update from_RTs_get_T_offset_errors r batch =
      blendFold r (offsetSlotMeans from_RTs_get_T_offset_errors batch) := by
  have hqfalse : (quatScoreLists torch_quat_distance batch).isEmpty = false := by
    cases hc : quatScoreLists torch_quat_distance batch
    · exact absurd hc hq
    · rfl
  have hifalse : (iouScoreLists100 get_3d_ious batch).isEmpty = false := by
    cases hc : iouScoreLists100 get_3d_ious batch
    · exact absurd hc hi
    · rfl
  have hDE : ∀ x : ℚ, DegreeError.update torch_quat_distance x batch =
      .ok ((x + torch_mean (quatScoreLists torch_quat_distance batch).flatten) / 2) := by
    intro x
    simp [DegreeError.update, degreeError_collect_eq, hqfalse]
  have hIA : ∀ x : ℚ, Iou3dAccuracy.update get_3d_ious x batch =
      .ok ((x + torch_mean (iouScoreLists100 get_3d_ious batch).flatten) / 2) := by
    intro x
    simp [Iou3dAccuracy.update, iou3dAccuracy_collect_eq get_3d_ious batch hsc, hifalse]
  refine ⟨?_, ?_, ?_, ?_, ?_⟩
  · rw [hDE e]
    simp [specRunningMeanBlend]
  · rw [hDE 0]
    norm_num
  · rw [hIA a]
    simp [specRunningMeanBlend]
  · rw [hIA 0]
    norm_num
  · exact offsetError_update_eq from_RTs_get_T_offset_errors r batch

/-- C1 witness at a concrete batch carrying one quaternion slot and one
iou slot. -/
theorem C1_witness :
    DegreeError.update fstScore 0 [qSlot [3] [1], rtScalesSlot [2] [2] [2] [2]] =
      .ok (3 / 2) ∧
    Iou3dAccuracy.update fstScore4 0 [qSlot [3] [1], rtScalesSlot [2] [2] [2] [2]] =
      .ok 100 ∧
    OffsetError.update fstScore 0 [qSlot [3] [1], rtScalesSlot [2] [2] [2] [2]] = 1 := by
  obtain ⟨h1, h2, h3, h4, h5⟩ :=
    C1_amended_running_mean_blend fstScore fstScore4 fstScore 0 0 0
      [qSlot [3] [1], rtScalesSlot [2] [2] [2] [2]]
      (by decide) (by decide) (by decide)
  refine ⟨?_, ?_, ?_⟩
  · rw [h2]
    norm_num [quatScoreLists, List.filterMap_cons, qSlot, rtScalesSlot, fstScore, torch_mean]
  · rw [h4]
    norm_num [iouScoreLists100, List.filterMap_cons, qSlot, rtScalesSlot, fstScore4,
      torch_mean]
  · rw [h5]
    norm_num [offsetSlotMeans, rtScoreLists, List.filterMap_cons, qSlot, rtScalesSlot,
      fstScore, torch_mean, blendFold, List.foldl_cons, List.foldl_nil]

/-- C2 counterexample: an `OffsetError.update` whose every slot is
skipped (and the empty batch) returns normally with the register
untouched instead of failing. -/
theorem C2_counterexample :
    OffsetError.update fstScore 3 [emptySlot] = 3 ∧
    OffsetError.update fstScore 3 [] = 3 :=
  ⟨rfl, rfl⟩

/-- C2 amended: on an all-skipped batch `DegreeError` and
`Iou3dAccuracy` fail with the empty-score-set error, while
`OffsetError` silently leaves its register unchanged. -/
theorem C2_amended_empty_batch
    (torch_quat_distance : Tensor → Tensor → Tensor)
    (get_3d_ious : Tensor → Tensor → Tensor → Tensor → Tensor)
    (from_RTs_get_T_offset_errors : Tensor → Tensor → Tensor)
    (e a r : ℚ) (batch : List Match)
    (hq : ∀ m ∈ batch, m.quaternion = none)
    (hrt : ∀ m ∈ batch, m.RT = none) :
    DegreeError.update torch_quat_distance e batch = .error .emptyScoreSet ∧
    Iou3dAccuracy.update get_3d_ious a batch = .error .emptyScoreSet ∧
    OffsetError.update from_RTs_get_T_offset_errors r batch = r := by
  have hqnil : quatScoreLists torch_quat_distance batch = [] := by
    simp only [quatScoreLists, List.filterMap_eq_nil_iff]
    intro m hm
    simp [hq m hm]
  have hinil : iouScoreLists100 get_3d_ious batch = [] := by
    simp only [iouScoreLists100, List.filterMap_eq_nil_iff]
    intro m hm
    simp [hrt m hm]
  have hrnil : rtScoreLists from_RTs_get_T_offset_errors batch = [] := by
    simp only [rtScoreLists, List.filterMap_eq_nil_iff]
    intro m hm
    simp [hrt m hm]
  have hsc : ∀ m ∈ batch, m.RT.isSome → m.scales.isSome := by
    intro m hm hsome
    rw [hrt m hm] at hsome
    simp at hsome
  refine ⟨?_, ?_, ?_⟩
  · simp [DegreeError.update, degreeError_collect_eq, hqnil]
  · simp [Iou3dAccuracy.update, iou3dAccuracy_collect_eq get_3d_ious batch hsc, hinil]
  · rw [offsetError_update_eq]
    simp [offsetSlotMeans, hrnil, blendFold]

/-- C2 witness at the one-slot all-skipped batch. -/
theorem C2_witness :
    DegreeError.update fstScore 1 [emptySlot] = .error .emptyScoreSet ∧
    Iou3dAccuracy.update fstScore4 2 [emptySlot] = .error .emptyScoreSet ∧
    OffsetError.update fstScore 3 [emptySlot] = 3 :=
  C2_amended_empty_batch fstScore fstScore4 fstScore 1 2 3 [emptySlot]
    (by decide) (by decide)

/-- C9: `OffsetError.update` blends once per non-skipped slot, so with
prior register r and slot means m1..mk the new register is
r / 2 ^ k plus the sum of each mean geometrically decayed by its
distance from the end of the batch; an all-skipped batch leaves the
register unchanged and raises nothing. -/
theorem C9_offset_error_blend_per_slot
    (from_RTs_get_T_offset_errors : Tensor → Tensor → Tensor)
    (r : ℚ) (batch : List Match) :
    OffsetError.update from_RTs_get_T_offset_errors r batch =
      r / 2 ^ (offsetSlotMeans from_RTs_get_T_offset_errors batch).length +
        ∑ i ∈ Finset.range (offsetSlotMeans from_RTs_get_T_offset_errors batch).length,
          (offsetSlotMeans from_RTs_get_T_offset_errors batch).getD i 0 /
            2 ^ ((offsetSlotMeans from_RTs_get_T_offset_errors batch).length - i) ∧
    ((∀ m ∈ batch, m.RT = none) →
      OffsetError.update from_RTs_get_T_offset_errors r batch = r) := by
  constructor
  · rw [offsetError_update_eq, blendFold_closed]
  · intro h
    rw [offsetError_update_eq]
    have hrnil : rtScoreLists from_RTs_get_T_offset_errors batch = [] := by
      simp only [rtScoreLists, List.filterMap_eq_nil_iff]
      intro m hm
      simp [h m hm]
    simp [offsetSlotMeans, hrnil, blendFold]

/-- C9 witness: slot means [0, 4] with register 8 give
8/4 + 0/4 + 4/2 = 4, and one all-skipped batch is a no-op. -/
theorem C9_witness :
    OffsetError.update fstScore 8 [rtSlot [0] [0], rtSlot [4] [4]] = 4 ∧
    OffsetError.update fstScore 8 [emptySlot] = 8 := by
  constructor
  · have h := (C9_offset_error_blend_per_slot fstScore 8 [rtSlot [0] [0], rtSlot [4] [4]]).1
    rw [h]
    norm_num [offsetSlotMeans, rtScoreLists, List.filterMap_cons, rtSlot, fstScore,
      torch_mean, Finset.sum_range_succ]
  · exact (C9_offset_error_blend_per_slot fstScore 8 [emptySlot]).2 (by decide)
